import Mathlib

/-!
Verification development for the NewsBrief digest pipeline.

The definitions below are a shallow embedding of the pipeline module:
strings stay strings, Python dict lookups become Option fields, Python
truthiness becomes an explicit predicate, an exception-raising call is a
value of type Except Unit, and the two external services (the news search
endpoint and the summarization model) are parameters: the HTTP exchange is
a value describing its outcome, and the summarizer is a function from the
input text to either a summary or a raised exception.
-/

set_option maxRecDepth 8000

namespace NewsBrief

/-- Python truthiness for an optional string: None and the empty string are
falsy, every other string is truthy. -/
def truthy : Option String → Bool
  | none => false
  | some s => !(s == "")

/-- Python `a or b` on optional strings: `a` when truthy, else `b`. -/
def pyOr (a b : Option String) : Option String :=
  if truthy a then a else b

/-- Python f-string interpolation of an optional value: None renders as the
four characters None. -/
def pyShow : Option String → String
  | none => "None"
  | some s => s

/-- Python slicing `s[:n]` by code points. -/
def pyTake (s : String) (n : Nat) : String :=
  ⟨s.data.take n⟩

/-- Python slicing `s[n:]` by code points. -/
def pyDrop (s : String) (n : Nat) : String :=
  ⟨s.data.drop n⟩

/-- Python `len(s)` by code points. -/
def pyLen (s : String) : Nat :=
  s.data.length

/-- Helper for `str.split()` with no separator: accumulate maximal runs of
non-whitespace characters, discarding the whitespace. -/
def splitWordsAux : List Char → List Char → List String
  | [], [] => []
  | [], acc => [String.mk acc.reverse]
  | c :: cs, acc =>
    if c.isWhitespace then
      match acc with
      | [] => splitWordsAux cs []
      | _ => String.mk acc.reverse :: splitWordsAux cs []
    else splitWordsAux cs (c :: acc)

/-- Python `s.split()` with no separator: whitespace-separated words, with
no empty pieces. -/
def pySplit (s : String) : List String :=
  splitWordsAux s.data []

/-- Python `len(s.split())`: the whitespace-separated word count. -/
def wordCount (s : String) : Nat :=
  (pySplit s).length

/-- One raw provider result object: every field reached through `.get` may
be absent. -/
structure RawSource where
  name : Option String
deriving DecidableEq

structure RawArticle where
  title : Option String
  description : Option String
  content : Option String
  source : Option RawSource
  publishedAt : Option String
  url : Option String
deriving DecidableEq

/-- The parsed JSON body of the provider response: `status` is
`data.get("status")` and `articles` is `data.get("articles", [])` (an
absent key is the empty list). -/
structure ApiResponse where
  status : Option String
  articles : List RawArticle
deriving DecidableEq

/-- One normalized article dictionary as built inside fetch_articles. -/
structure Article where
  title : Option String
  text : Option String
  source : Option String
  date : String
  url : Option String
deriving DecidableEq

/-- One digest entry as built inside generate_news_digest. -/
structure DigestEntry where
  title : Option String
  source : Option String
  date : String
  summary : String
  why_it_matters : String
  url : Option String
deriving DecidableEq

/-- Outcome of the HTTP exchange inside fetch_articles: transportError
covers any exception raised by the GET or by JSON parsing of the body
(both sit inside the single try block); response carries the HTTP status
code and the parsed body. -/
inductive FetchOutcome where
  | transportError : FetchOutcome
  | response : Nat → ApiResponse → FetchOutcome
deriving DecidableEq

/-- Module-level constant MAX_ARTICLES. -/
def MAX_ARTICLES : Nat := 5

/-- Module-load credential check: `API_KEY = os.getenv("NEWS_API_KEY")`
followed by `if not API_KEY: raise RuntimeError(...)`. The argument is the
environment value (None when the variable is absent); the error value is
the RuntimeError message. -/
def load_api_key (env : Option String) : Except String String :=
  if truthy env then Except.ok (env.getD "") else
    Except.error "NEWS_API_KEY not found. Set it in .env or Streamlit secrets."

/-- The request URL built inside fetch_articles from its f-string. -/
def build_url (query : String) (max_results : Nat) (apiKey : String) : String :=
  "https://newsapi.org/v2/everything?q=" ++ query ++ "&pageSize=" ++
    toString max_results ++ "&language=en&apiKey=" ++ apiKey

/-- The per-result normalization performed by the loop body in
fetch_articles: text is `a.get("description") or a.get("content")`, source
is `a.get("source", \x7b\x7d).get("name")`, date is
`(a.get("publishedAt") or "")[:10]`. -/
def normalize (a : RawArticle) : Article :=
  { title := a.title
  , text := pyOr a.description a.content
  , source := Option.bind a.source (fun src => src.name)
  , date := pyTake ((pyOr a.publishedAt (some "")).getD "") 10
  , url := a.url }

/-- fetch_articles, as a function of the HTTP outcome: the except branch
returns [], a body whose status field differs from ok returns [], and
otherwise every article in the body is normalized. The HTTP status code is
never read. -/
def fetch_articles : FetchOutcome → List Article
  | FetchOutcome.transportError => []
  | FetchOutcome.response _ body =>
    if body.status = some "ok" then body.articles.map normalize else []

/-- The summarization model: called on the (already truncated) text, it
either returns the extracted summary string or raises. The error covers
every exception inside the try block of summarize_article, including the
indexing `summary[0]["summary_text"]`. -/
def Summarizer : Type := String → Except Unit String

/-- The try/except around the model call in summarize_article: a raised
exception is replaced by the processing-limits placeholder. -/
def runModel (f : Summarizer) (t : String) : Except Unit String :=
  match f t with
  | Except.ok s => Except.ok s
  | Except.error _ => Except.ok "Summary could not be generated due to processing limits."

/-- The call `get_summarizer()` in summarize_article, followed (on
success) by the guarded model call: get_summarizer sits outside the try
block, so a construction failure is re-raised as is. The first argument
models the outcome of get_summarizer: ok with the model handle when lazy
construction succeeds, error when the pipeline constructor raises. -/
def gsRun (gs : Except Unit Summarizer) (t : String) : Except Unit String :=
  match gs with
  | Except.error e => Except.error e
  | Except.ok f => runModel f t

/-- summarize_article: the insufficient-content guard, then truncation to
3000 code points, then get_summarizer and the guarded model call. -/
def summarize_article (gs : Except Unit Summarizer) (text : Option String) :
    Except Unit String :=
  if truthy text = false ∨ wordCount (text.getD "") < 40 then
    Except.ok "Summary unavailable due to insufficient article content."
  else
    gsRun gs (pyTake (text.getD "") 3000)

/-- explain_importance: the fixed template around the title. A None title
interpolates as the string None, as in a Python f-string. -/
def explain_importance (title : Option String) : String :=
  "This development around \x27" ++ pyShow title ++
    "\x27 may influence public opinion, market trends, or upcoming decisions related to this topic."

/-- The dictionary appended to the digest for one article. -/
def digestEntryOf (art : Article) (summary : String) : DigestEntry :=
  { title := art.title
  , source := art.source
  , date := art.date
  , summary := summary
  , why_it_matters := explain_importance art.title
  , url := art.url }

/-- The metadata quadruple of a digest entry: title, source, date, url. -/
def entryMeta (e : DigestEntry) : Option String × Option String × String × Option String :=
  (e.title, e.source, e.date, e.url)

/-- The metadata quadruple of a normalized article: title, source, date, url. -/
def articleMeta (a : Article) : Option String × Option String × String × Option String :=
  (a.title, a.source, a.date, a.url)

/-- The loop of generate_news_digest: each article is summarized in order
and appended; an exception escaping summarize_article aborts the loop and
propagates. -/
def digestLoop (gs : Except Unit Summarizer) : List Article → Except Unit (List DigestEntry)
  | [] => Except.ok []
  | art :: rest =>
    match summarize_article gs art.text with
    | Except.error e => Except.error e
    | Except.ok s =>
      match digestLoop gs rest with
      | Except.error e => Except.error e
      | Except.ok entries => Except.ok (digestEntryOf art s :: entries)

/-- generate_news_digest, as a function of the summarizer handle outcome
and the HTTP outcome. -/
def generate_news_digest (gs : Except Unit Summarizer) (o : FetchOutcome) :
    Except Unit (List DigestEntry) :=
  digestLoop gs (fetch_articles o)

/-- Boolean success test on an exception-or-value outcome. -/
def isOkE {ε α : Type} : Except ε α → Bool
  | Except.ok _ => true
  | Except.error _ => false

/-! Concrete inputs used by the witness and counterexample theorems. -/

/-- A text of n repetitions of a word followed by a space. -/
def repeatWord : Nat → String
  | 0 => ""
  | n + 1 => "news " ++ repeatWord n

/-- A body text of exactly 40 whitespace-separated words. -/
def longText40 : String := repeatWord 40

/-- A summarizer whose call always succeeds, echoing its input. -/
def idSumm : Summarizer := fun s => Except.ok s

/-- A summarizer whose call always raises. -/
def failSumm : Summarizer := fun _ => Except.error ()

/-- A raw provider result with a short description. -/
def rawShort : RawArticle :=
  { title := some "Quantum Update"
  , description := some "too short"
  , content := some "fallback body"
  , source := some { name := some "Reuters" }
  , publishedAt := some "2025-10-02T10:00:00Z"
  , url := some "https://example.com/q" }

/-- A raw provider result whose description has 40 words. -/
def rawLong : RawArticle :=
  { title := some "Battery Breakthrough"
  , description := some longText40
  , content := none
  , source := some { name := some "TechCrunch" }
  , publishedAt := some "2025-10-03T09:30:00Z"
  , url := some "https://example.com/b" }

/-- A provider body with status ok and one short article. -/
def okBody : ApiResponse := { status := some "ok", articles := [rawShort] }

/-- A provider body with status ok and one long article. -/
def longBody : ApiResponse := { status := some "ok", articles := [rawLong] }

/-- A provider body with status ok and six articles, one more than
MAX_ARTICLES. -/
def body6 : ApiResponse :=
  { status := some "ok"
  , articles := [rawShort, rawLong, rawShort, rawLong, rawShort, rawLong] }

/-- The digest entry produced from rawShort by any summarizer handle. -/
def entry1 : DigestEntry :=
  { title := some "Quantum Update"
  , source := some "Reuters"
  , date := "2025-10-02"
  , summary := "Summary unavailable due to insufficient article content."
  , why_it_matters := explain_importance (some "Quantum Update")
  , url := some "https://example.com/q" }

end NewsBrief

namespace NewsBrief

/-! Helper lemmas about the embedded operations. -/

/-- The guarded model call never raises: both branches of the try/except
return a value. -/
lemma runModel_isOk (f : Summarizer) (t : String) :
    ∃ s, runModel f t = Except.ok s := by
  cases hft : f t with
  | ok s => exact ⟨s, by simp [runModel, hft]⟩
  | error e =>
    exact ⟨"Summary could not be generated due to processing limits.",
      by simp [runModel, hft]⟩

/-- Once the summarizer handle is constructed, summarize_article never
raises. -/
lemma summarize_article_ok (f : Summarizer) (text : Option String) :
    ∃ s, summarize_article (Except.ok f) text = Except.ok s := by
  unfold summarize_article
  by_cases h : truthy text = false ∨ wordCount (text.getD "") < 40
  · rw [if_pos h]
    exact ⟨_, rfl⟩
  · rw [if_neg h]
    exact runModel_isOk f (pyTake (text.getD "") 3000)

/-- Once the summarizer handle is constructed, the digest loop succeeds on
every article list. -/
lemma digestLoop_isOk (f : Summarizer) (arts : List Article) :
    ∃ l, digestLoop (Except.ok f) arts = Except.ok l := by
  induction arts with
  | nil => exact ⟨[], rfl⟩
  | cons a rest ih =>
    obtain ⟨s, hs⟩ := summarize_article_ok f a.text
    obtain ⟨l, hl⟩ := ih
    exact ⟨digestEntryOf a s :: l, by simp [digestLoop, hs, hl]⟩

/-- Once the summarizer handle is constructed, the digest loop returns one
entry per article. -/
lemma digestLoop_length (f : Summarizer) (arts : List Article) :
    Except.map List.length (digestLoop (Except.ok f) arts) =
      Except.ok arts.length := by
  induction arts with
  | nil => rfl
  | cons a rest ih =>
    obtain ⟨s, hs⟩ := summarize_article_ok f a.text
    obtain ⟨l, hl⟩ := digestLoop_isOk f rest
    rw [hl] at ih
    simp only [Except.map, Except.ok.injEq] at ih
    simp [digestLoop, hs, hl, Except.map, ih]

/-- A successful digest carries over each article's title, source, date
and url, in order, one entry per article. -/
lemma digestLoop_meta (gs : Except Unit Summarizer) (arts : List Article)
    (l : List DigestEntry) (h : digestLoop gs arts = Except.ok l) :
    l.map entryMeta = arts.map articleMeta := by
  induction arts generalizing l with
  | nil =>
    simp only [digestLoop, Except.ok.injEq] at h
    subst h
    simp
  | cons a rest ih =>
    simp only [digestLoop] at h
    cases hs : summarize_article gs a.text with
    | error e => rw [hs] at h; cases h
    | ok s =>
      rw [hs] at h
      cases hr : digestLoop gs rest with
      | error e => rw [hr] at h; cases h
      | ok entries =>
        rw [hr] at h
        simp only [Except.ok.injEq] at h
        subst h
        simp [entryMeta, articleMeta, digestEntryOf, ih entries hr]

/-- A successful digest puts the templated importance sentence for article
i's title in entry i. -/
lemma digestLoop_why (gs : Except Unit Summarizer) (arts : List Article)
    (l : List DigestEntry) (h : digestLoop gs arts = Except.ok l)
    (i : Nat) (hi : i < l.length) (hj : i < arts.length) :
    (l.get ⟨i, hi⟩).why_it_matters =
      explain_importance ((arts.get ⟨i, hj⟩).title) := by
  induction arts generalizing l i with
  | nil => exact absurd hj (Nat.not_lt_zero i)
  | cons a rest ih =>
    simp only [digestLoop] at h
    cases hs : summarize_article gs a.text with
    | error e => rw [hs] at h; cases h
    | ok s =>
      rw [hs] at h
      cases hr : digestLoop gs rest with
      | error e => rw [hr] at h; cases h
      | ok entries =>
        rw [hr] at h
        simp only [Except.ok.injEq] at h
        subst h
        cases i with
        | zero => simp [digestEntryOf]
        | succ n =>
          simp only [List.get]
          exact ih entries hr n _ (Nat.lt_of_succ_lt_succ hj)

/-! Claim theorems. -/

/-- C1 counterexample: on a qualifying 40-word text, a failure during the
lazy construction of the model handle in get_summarizer propagates out of
summarize_article instead of becoming the processing-limits placeholder,
and it aborts generate_news_digest on a response carrying that article. -/
theorem C1_counterexample :
    summarize_article (Except.error ()) (some longText40) = Except.error () ∧
    generate_news_digest (Except.error ()) (FetchOutcome.response 200 longBody) =
      Except.error () :=
  ⟨rfl, rfl⟩

/-- C1 amended: an exception raised while invoking the summarizer inside
the try block is replaced by the processing-limits placeholder and never
propagates, and a digest whose handle construction succeeded never aborts;
but an exception from the lazy construction in get_summarizer, which sits
outside the try block, propagates out of summarize_article. -/
theorem C1_amended (f : Summarizer) (t : String) (o : FetchOutcome)
    (ht : truthy (some t) = true) (hw : 40 ≤ wordCount t)
    (hf : f (pyTake t 3000) = Except.error ()) :
    summarize_article (Except.ok f) (some t) =
      Except.ok "Summary could not be generated due to processing limits." ∧
    isOkE (generate_news_digest (Except.ok f) o) = true ∧
    summarize_article (Except.error ()) (some t) = Except.error () := by
  have hcond : ¬ (truthy (some t) = false ∨ wordCount ((some t).getD "") < 40) := by
    intro hc
    rcases hc with hc | hc
    · rw [ht] at hc
      cases hc
    · simp only [Option.getD] at hc
      omega
  refine ⟨?_, ?_, ?_⟩
  · unfold summarize_article
    rw [if_neg hcond]
    simp [gsRun, runModel, Option.getD, hf]
  · obtain ⟨l, hl⟩ := digestLoop_isOk f (fetch_articles o)
    unfold generate_news_digest
    rw [hl]
    rfl
  · unfold summarize_article
    rw [if_neg hcond]
    rfl

/-- C1 amended witness at a concrete 40-word text, a summarizer whose call
always raises, and a response carrying that text. -/
theorem C1_amended_witness :
    summarize_article (Except.ok failSumm) (some longText40) =
      Except.ok "Summary could not be generated due to processing limits." ∧
    isOkE (generate_news_digest (Except.ok failSumm)
      (FetchOutcome.response 200 longBody)) = true ∧
    summarize_article (Except.error ()) (some longText40) = Except.error () :=
  C1_amended failSumm longText40 (FetchOutcome.response 200 longBody)
    (by decide) (by decide) rfl

/-- C2 counterexample: an HTTP 500 response whose body has status ok and
one article makes fetch_articles return that article, not the empty
sequence, so a non-200 HTTP status does not by itself force an empty
result and the response body does matter. -/
theorem C2_counterexample :
    fetch_articles (FetchOutcome.response 500 okBody) = [normalize rawShort] ∧
    fetch_articles (FetchOutcome.response 500 okBody) ≠ [] :=
  ⟨by decide, by decide⟩

/-- C2 amended: fetch_articles never inspects the HTTP status code: the
result is the same for any two status codes, and it is empty exactly when
the body status field differs from ok, otherwise the normalized articles
of the body. -/
theorem C2_amended (s1 s2 : Nat) (body : ApiResponse) :
    fetch_articles (FetchOutcome.response s1 body) =
      fetch_articles (FetchOutcome.response s2 body) ∧
    fetch_articles (FetchOutcome.response s1 body) =
      (if body.status = some "ok" then body.articles.map normalize else []) :=
  ⟨rfl, rfl⟩

/-- C3: on a transport or JSON-parse error, on a body status other than
ok, or on zero provider results, fetch_articles returns the empty sequence
and generate_news_digest returns an ok empty digest, never an exception,
for every summarizer-handle outcome. -/
theorem C3_empty_never_raises (gs : Except Unit Summarizer) (o : FetchOutcome)
    (h : o = FetchOutcome.transportError ∨
      (∃ s body, o = FetchOutcome.response s body ∧ body.status ≠ some "ok") ∨
      (∃ s body, o = FetchOutcome.response s body ∧ body.articles = [])) :
    fetch_articles o = [] ∧ generate_news_digest gs o = Except.ok [] := by
  have hfe : fetch_articles o = [] := by
    rcases h with h | ⟨s, body, rfl, hst⟩ | ⟨s, body, rfl, hart⟩
    · rw [h]
      rfl
    · simp [fetch_articles, hst]
    · by_cases hok : body.status = some "ok" <;> simp [fetch_articles, hok, hart]
  refine ⟨hfe, ?_⟩
  unfold generate_news_digest
  rw [hfe]
  rfl

/-- C3 witness at a transport error with an unconstructed summarizer
handle. -/
theorem C3_witness :
    fetch_articles FetchOutcome.transportError = [] ∧
    generate_news_digest (Except.error ()) FetchOutcome.transportError =
      Except.ok [] :=
  C3_empty_never_raises (Except.error ()) FetchOutcome.transportError (Or.inl rfl)

/-- C4: when the body text is absent, empty, or under 40 words,
summarize_article returns the insufficient-content placeholder and its
result is independent of the summarizer-handle outcome, so the model is
neither constructed nor invoked; on a qualifying text the placeholder
branch is not taken and the function proceeds to get_summarizer and the
guarded model call on the truncated text. -/
theorem C4_insufficient (text : Option String) (t : String)
    (gs gs2 : Except Unit Summarizer)
    (h : truthy text = false ∨ wordCount (text.getD "") < 40)
    (ht : truthy (some t) = true) (hw : 40 ≤ wordCount t) :
    (summarize_article gs text =
      Except.ok "Summary unavailable due to insufficient article content." ∧
     summarize_article gs text = summarize_article gs2 text) ∧
    summarize_article gs (some t) = gsRun gs (pyTake t 3000) := by
  have hcond : ¬ (truthy (some t) = false ∨ wordCount ((some t).getD "") < 40) := by
    intro hc
    rcases hc with hc | hc
    · rw [ht] at hc
      cases hc
    · simp only [Option.getD] at hc
      omega
  refine ⟨⟨?_, ?_⟩, ?_⟩
  · unfold summarize_article
    rw [if_pos h]
  · unfold summarize_article
    rw [if_pos h, if_pos h]
  · unfold summarize_article
    rw [if_neg hcond]
    rfl

/-- C4 witness: a ten-word description yields the placeholder independently
of the handle, and a 40-word text reaches the model call. -/
theorem C4_witness :
    (summarize_article (Except.error ()) (some "too short") =
      Except.ok "Summary unavailable due to insufficient article content." ∧
     summarize_article (Except.error ()) (some "too short") =
      summarize_article (Except.ok idSumm) (some "too short")) ∧
    summarize_article (Except.error ()) (some longText40) =
      gsRun (Except.error ()) (pyTake longText40 3000) :=
  C4_insufficient (some "too short") longText40 (Except.error ())
    (Except.ok idSumm) (by decide) (by decide) (by decide)

/-- C5: on a qualifying text of at least 40 words, the string handed to the
guarded model call is the three-thousand-point slice of the body text; the
slice concatenated with the dropped tail is the body text, so it is an
initial segment, and its length is the minimum of 3000 and the text
length: the whole text when shorter than 3000, exactly 3000 points
otherwise. -/
theorem C5_truncation (t : String) (f : Summarizer)
    (ht : truthy (some t) = true) (hw : 40 ≤ wordCount t) :
    summarize_article (Except.ok f) (some t) = runModel f (pyTake t 3000) ∧
    pyTake t 3000 ++ pyDrop t 3000 = t ∧
    pyLen (pyTake t 3000) = min 3000 (pyLen t) := by
  have hcond : ¬ (truthy (some t) = false ∨ wordCount ((some t).getD "") < 40) := by
    intro hc
    rcases hc with hc | hc
    · rw [ht] at hc
      cases hc
    · simp only [Option.getD] at hc
      omega
  refine ⟨?_, ?_, ?_⟩
  · unfold summarize_article
    rw [if_neg hcond]
    rfl
  · exact String.ext (by simp [pyTake, pyDrop])
  · simp [pyLen, pyTake, List.length_take]

/-- C5 witness at a concrete 40-word text, 200 points long, with the
echoing summarizer. -/
theorem C5_witness :
    summarize_article (Except.ok idSumm) (some longText40) =
      runModel idSumm (pyTake longText40 3000) ∧
    pyTake longText40 3000 ++ pyDrop longText40 3000 = longText40 ∧
    pyLen (pyTake longText40 3000) = min 3000 (pyLen longText40) :=
  C5_truncation longText40 idSumm (by decide) (by decide)

/-- C6: in every successful digest, entry i's why_it_matters field is the
fixed template applied to the title of normalized article i, so it depends
on nothing but the title: the body text, source, date and url never enter
explain_importance. -/
theorem C6_why_template (gs : Except Unit Summarizer) (o : FetchOutcome)
    (l : List DigestEntry) (h : generate_news_digest gs o = Except.ok l)
    (i : Nat) (hi : i < l.length) (hj : i < (fetch_articles o).length) :
    (l.get ⟨i, hi⟩).why_it_matters =
      explain_importance (((fetch_articles o).get ⟨i, hj⟩).title) :=
  digestLoop_why gs (fetch_articles o) l h i hi hj

/-- C6 witness on a one-article response digested with the echoing
summarizer. -/
theorem C6_witness :
    (([entry1] : List DigestEntry).get ⟨0, by decide⟩).why_it_matters =
      explain_importance
        (((fetch_articles (FetchOutcome.response 200 okBody)).get
          ⟨0, by decide⟩).title) :=
  C6_why_template (Except.ok idSumm) (FetchOutcome.response 200 okBody)
    [entry1] rfl 0 (by decide) (by decide)

/-- C7: every successful digest has exactly one entry per normalized fetch
result and, position by position in the same order, entry i carries the
title, source, date and url of normalized result i: the metadata images of
the two lists coincide, so nothing is re-ordered, deduplicated or
dropped. -/
theorem C7_order_preserved (gs : Except Unit Summarizer) (o : FetchOutcome)
    (l : List DigestEntry) (h : generate_news_digest gs o = Except.ok l) :
    l.map entryMeta = (fetch_articles o).map articleMeta :=
  digestLoop_meta gs (fetch_articles o) l h

/-- C7 witness on a one-article response digested with the echoing
summarizer. -/
theorem C7_witness :
    ([entry1] : List DigestEntry).map entryMeta =
      (fetch_articles (FetchOutcome.response 200 okBody)).map articleMeta :=
  C7_order_preserved (Except.ok idSumm) (FetchOutcome.response 200 okBody)
    [entry1] rfl

/-- C8: normalization takes the description as body text when it is present
and non-empty and the content field otherwise, slices the first ten code
points of the publishedAt timestamp as the date, and copies title, the
name inside the source object, and url through unchanged. -/
theorem C8_normalization (a : RawArticle) (s : String)
    (hp : a.publishedAt = some s) :
    (normalize a).text =
      (if truthy a.description = true then a.description else a.content) ∧
    (normalize a).date = pyTake s 10 ∧
    (normalize a).title = a.title ∧
    (normalize a).source = Option.bind a.source (fun src => src.name) ∧
    (normalize a).url = a.url := by
  refine ⟨?_, ?_, rfl, rfl, rfl⟩
  · by_cases hd : truthy a.description = true <;> simp [normalize, pyOr, hd]
  · by_cases hs : truthy (some s) = true
    · simp [normalize, pyOr, hp, hs]
    · have hs0 : s = "" := by
        simp [truthy] at hs
        exact hs
      subst hs0
      simp [normalize, pyOr, hp, truthy, pyTake]

/-- C8 witness on a concrete raw provider result. -/
theorem C8_witness :
    (normalize rawShort).text =
      (if truthy rawShort.description = true then rawShort.description
       else rawShort.content) ∧
    (normalize rawShort).date = pyTake "2025-10-02T10:00:00Z" 10 ∧
    (normalize rawShort).title = rawShort.title ∧
    (normalize rawShort).source =
      Option.bind rawShort.source (fun src => src.name) ∧
    (normalize rawShort).url = rawShort.url :=
  C8_normalization rawShort "2025-10-02T10:00:00Z" rfl

/-- C9: when the NEWS_API_KEY environment value is absent or empty, the
module-load credential check raises the RuntimeError with its fixed
message, so startup fails before any pipeline operation can run and there
is no recovery path. -/
theorem C9_missing_key (env : Option String)
    (h : env = none ∨ env = some "") :
    load_api_key env =
      Except.error "NEWS_API_KEY not found. Set it in .env or Streamlit secrets." := by
  rcases h with rfl | rfl <;> rfl

/-- C9 witness at an absent environment variable. -/
theorem C9_witness :
    load_api_key none =
      Except.error "NEWS_API_KEY not found. Set it in .env or Streamlit secrets." :=
  C9_missing_key none (Or.inl rfl)

/-- C10: the constant MAX_ARTICLES reaches only the pageSize parameter of
the request URL; on a status-ok body carrying more than MAX_ARTICLES
articles, fetch_articles normalizes every one of them and the digest,
under any successfully constructed summarizer, holds one entry per body
article: no client-side truncation happens anywhere. -/
theorem C10_no_client_truncation (query apiKey : String) (s : Nat)
    (body : ApiResponse) (f : Summarizer)
    (hok : body.status = some "ok")
    (_hmore : MAX_ARTICLES < body.articles.length) :
    (fetch_articles (FetchOutcome.response s body)).length =
      body.articles.length ∧
    Except.map List.length
        (generate_news_digest (Except.ok f) (FetchOutcome.response s body)) =
      Except.ok body.articles.length ∧
    build_url query MAX_ARTICLES apiKey =
      "https://newsapi.org/v2/everything?q=" ++ query ++
        "&pageSize=5&language=en&apiKey=" ++ apiKey := by
  have hfe : fetch_articles (FetchOutcome.response s body) =
      body.articles.map normalize := by
    simp [fetch_articles, hok]
  refine ⟨by rw [hfe]; simp, ?_, ?_⟩
  · unfold generate_news_digest
    rw [hfe]
    have hlen := digestLoop_length f (body.articles.map normalize)
    simpa using hlen
  · have h5 : toString MAX_ARTICLES = "5" := rfl
    refine String.ext ?_
    simp [build_url, h5, String.data_append]

/-- C10 witness on a six-article status-ok body, one article more than
MAX_ARTICLES, with the echoing summarizer. -/
theorem C10_witness :
    (fetch_articles (FetchOutcome.response 200 body6)).length =
      body6.articles.length ∧
    Except.map List.length
        (generate_news_digest (Except.ok idSumm)
          (FetchOutcome.response 200 body6)) =
      Except.ok body6.articles.length ∧
    build_url "ai" MAX_ARTICLES "KEY" =
      "https://newsapi.org/v2/everything?q=" ++ "ai" ++
        "&pageSize=5&language=en&apiKey=" ++ "KEY" :=
  C10_no_client_truncation "ai" "KEY" 200 body6 idSumm rfl (by decide)

end NewsBrief
